import Mathlib

/-!
Verification of the Azure blob storage adapter (`src/storage.py`).

The repository wraps the Azure SDK's `ContainerClient`: the remote container
is modelled as an abstract state mapping string keys to byte sequences, and
the SDK primitives (`upload_blob` with `overwrite=True`, `download_blob`,
`delete_blob`, `exists`) are modelled over that state, with an explicit
fault-injection parameter standing for backend exceptions (network errors,
permission errors).  The adapter methods are translated line by line from
`storage.py`; `generate_storage_path` needs the MD5 hash of the URL's UTF-8
bytes, so MD5 (RFC 1321, the semantics of Python's `hashlib.md5`) is
implemented here over `Nat` with explicit reduction modulo 2^32.
-/

/-- Blob contents: an opaque byte sequence (each entry one byte, < 256). -/
abbrev ByteSeq := List Nat

/-- Abstract state of the remote Azure container: a partial map from blob
keys to stored byte sequences. -/
abbrev ContainerState := String → Option ByteSeq

/-- The container with no blobs. -/
def emptyContainer : ContainerState := fun _ => none

/-- Backend exceptions the Azure SDK can raise. -/
inductive BackendErr where
  | notFound
  | permission
  | network
deriving DecidableEq

/-- Fault injection: `none` means the backend call goes through normally,
`some e` means the SDK raises exception `e` during the call. -/
abbrev Fault := Option BackendErr

/-- SDK `blob_client.upload_blob(data, overwrite=True)`: stores the bytes
under the key, unconditionally replacing any existing blob there. -/
def backendUploadBlob (st : ContainerState) (key : String) (data : ByteSeq) :
    ContainerState :=
  fun k => if k = key then some data else st k

/-- SDK `blob_client.download_blob().readall()`: returns the stored bytes, or
raises `ResourceNotFoundError` when the key is absent; an injected fault
raises that exception instead. -/
def backendDownloadBlob (f : Fault) (st : ContainerState) (key : String) :
    Except BackendErr ByteSeq :=
  match f with
  | some e => Except.error e
  | none =>
    match st key with
    | some b => Except.ok b
    | none => Except.error BackendErr.notFound

/-- SDK `blob_client.delete_blob()`: removes the blob and returns the new
container state, or raises `ResourceNotFoundError` when the key is absent;
an injected fault raises that exception instead. -/
def backendDeleteBlob (f : Fault) (st : ContainerState) (key : String) :
    Except BackendErr ContainerState :=
  match f with
  | some e => Except.error e
  | none =>
    match st key with
    | some _ => Except.ok (fun k => if k = key then none else st k)
    | none => Except.error BackendErr.notFound

/-- SDK `blob_client.exists()`: reports whether a blob is stored under the
key; an injected fault raises an exception instead. -/
def backendExists (f : Fault) (st : ContainerState) (key : String) :
    Except BackendErr Bool :=
  match f with
  | some e => Except.error e
  | none => Except.ok (st key).isSome

/-- The adapter object from `storage.py` lines 18-33: holds the SAS URL, the
SAS token and the container name given to `__init__`.  The
`container_client` handle is represented by the explicit `ContainerState`
argument the blob operations take. -/
structure AzureBlobStorage where
  sas_url : String
  sas_token : String
  container_name : String

/-- Method `upload` (`storage.py` lines 35-48): delegates to `upload_blob`
with `overwrite=True` and returns the `file_path` it was given, paired here
with the resulting container state. -/
def AzureBlobStorage.upload (_self : AzureBlobStorage) (st : ContainerState)
    (file_path : String) (data : ByteSeq) : String × ContainerState :=
  (file_path, backendUploadBlob st file_path data)

/-- Method `download` (`storage.py` lines 113-124): delegates to
`download_blob().readall()` with no exception handling. -/
def AzureBlobStorage.download (_self : AzureBlobStorage) (f : Fault)
    (st : ContainerState) (file_path : String) : Except BackendErr ByteSeq :=
  backendDownloadBlob f st file_path

/-- Method `delete` (`storage.py` lines 83-98): calls `delete_blob` inside
`try`, returns `True` on success and `False` on any exception.  The pair
carries the container state after the call (unchanged when the call raised). -/
def AzureBlobStorage.delete (_self : AzureBlobStorage) (f : Fault)
    (st : ContainerState) (file_path : String) : Bool × ContainerState :=
  match backendDeleteBlob f st file_path with
  | Except.ok st2 => (true, st2)
  | Except.error _ => (false, st)

/-- Method `exists` (`storage.py` lines 100-111): returns
`blob_client.exists()` directly, with no `try`/`except` — a raised backend
exception propagates to the caller. -/
def AzureBlobStorage.exists_blob (_self : AzureBlobStorage) (f : Fault)
    (st : ContainerState) (file_path : String) : Except BackendErr Bool :=
  backendExists f st file_path

/-- Python `str.split(sep)` with a one-character separator: splits at every
occurrence, keeping empty pieces, and always returns at least one piece. -/
def pySplitChar (sep : Char) : List Char → List (List Char)
  | [] => [[]]
  | c :: cs =>
    if c = sep then [] :: pySplitChar sep cs
    else
      match pySplitChar sep cs with
      | [] => [[c]]
      | r :: rs => (c :: r) :: rs

/-- Method `get_url` (`storage.py` lines 64-81):
`base_url = self.sas_url.split('?')[0]` then
`f"{base_url}/{file_path}?{self.sas_token}"`.  The `expiry_hours` parameter
(default 24 in the source) is accepted and never used; the method touches no
container state. -/
def AzureBlobStorage.get_url (self : AzureBlobStorage) (file_path : String)
    (_expiry_hours : Nat) : String :=
  String.mk ((pySplitChar '?' self.sas_url.data).headD []) ++ "/" ++
    file_path ++ "?" ++ self.sas_token

/-- Specification-side reading of "the SAS base URL with everything from the
first question mark onward stripped": the longest prefix of the string that
contains no question mark. -/
def baseWithoutQuery (s : String) : String :=
  String.mk (s.data.takeWhile (fun c => c ≠ '?'))

/-- Reduction modulo 2^32, the word size of MD5 arithmetic. -/
def b32 (n : Nat) : Nat := n % 4294967296

/-- Bitwise complement on a 32-bit word. -/
def not32 (n : Nat) : Nat := 4294967295 - b32 n

/-- Left rotation of a 32-bit word by `s` places (0 < s < 32 in all uses). -/
def rotl32 (x s : Nat) : Nat :=
  (b32 x * 2 ^ s + b32 x / 2 ^ (32 - s)) % 4294967296

/-- The 64 MD5 round constants: `floor(2^32 * abs(sin(i + 1)))` (RFC 1321). -/
def mdK : List Nat :=
  [0xd76aa478, 0xe8c7b756, 0x242070db, 0xc1bdceee,
   0xf57c0faf, 0x4787c62a, 0xa8304613, 0xfd469501,
   0x698098d8, 0x8b44f7af, 0xffff5bb1, 0x895cd7be,
   0x6b901122, 0xfd987193, 0xa679438e, 0x49b40821,
   0xf61e2562, 0xc040b340, 0x265e5a51, 0xe9b6c7aa,
   0xd62f105d, 0x02441453, 0xd8a1e681, 0xe7d3fbc8,
   0x21e1cde6, 0xc33707d6, 0xf4d50d87, 0x455a14ed,
   0xa9e3e905, 0xfcefa3f8, 0x676f02d9, 0x8d2a4c8a,
   0xfffa3942, 0x8771f681, 0x6d9d6122, 0xfde5380c,
   0xa4beea44, 0x4bdecfa9, 0xf6bb4b60, 0xbebfbc70,
   0x289b7ec6, 0xeaa127fa, 0xd4ef3085, 0x04881d05,
   0xd9d4d039, 0xe6db99e5, 0x1fa27cf8, 0xc4ac5665,
   0xf4292244, 0x432aff97, 0xab9423a7, 0xfc93a039,
   0x655b59c3, 0x8f0ccc92, 0xffeff47d, 0x85845dd1,
   0x6fa87e4f, 0xfe2ce6e0, 0xa3014314, 0x4e0811a1,
   0xf7537e82, 0xbd3af235, 0x2ad7d2bb, 0xeb86d391]

/-- The 64 MD5 per-round left-rotation amounts (RFC 1321). -/
def mdS : List Nat :=
  [7, 12, 17, 22, 7, 12, 17, 22, 7, 12, 17, 22, 7, 12, 17, 22,
   5,  9, 14, 20, 5,  9, 14, 20, 5,  9, 14, 20, 5,  9, 14, 20,
   4, 11, 16, 23, 4, 11, 16, 23, 4, 11, 16, 23, 4, 11, 16, 23,
   6, 10, 15, 21, 6, 10, 15, 21, 6, 10, 15, 21, 6, 10, 15, 21]

/-- MD5 nonlinear round function, chosen by the round index. -/
def mdF (i b c d : Nat) : Nat :=
  if i < 16 then (b32 b &&& b32 c) ||| (not32 b &&& b32 d)
  else if i < 32 then (b32 d &&& b32 b) ||| (not32 d &&& b32 c)
  else if i < 48 then b32 b ^^^ b32 c ^^^ b32 d
  else b32 c ^^^ (b32 b ||| not32 d)

/-- MD5 message-word index for the round. -/
def mdG (i : Nat) : Nat :=
  if i < 16 then i
  else if i < 32 then (5 * i + 1) % 16
  else if i < 48 then (3 * i + 5) % 16
  else (7 * i) % 16

/-- The 16 little-endian 32-bit message words of one 64-byte block. -/
def wordsOf (block : List Nat) : List Nat :=
  (List.range 16).map fun j =>
    block.getD (4 * j) 0 + 256 * block.getD (4 * j + 1) 0 +
      65536 * block.getD (4 * j + 2) 0 + 16777216 * block.getD (4 * j + 3) 0

/-- One MD5 round on the state `(a, b, c, d)`. -/
def md5Round (ws : List Nat) (st : Nat × Nat × Nat × Nat) (i : Nat) :
    Nat × Nat × Nat × Nat :=
  match st with
  | (a, b, c, d) =>
    let f := (mdF i b c d + a + mdK.getD i 0 + ws.getD (mdG i) 0) % 4294967296
    (d, (b + rotl32 f (mdS.getD i 0)) % 4294967296, b, c)

/-- MD5 compression: 64 rounds on one block, then add the old state. -/
def md5Block (st : Nat × Nat × Nat × Nat) (block : List Nat) :
    Nat × Nat × Nat × Nat :=
  match st, (List.range 64).foldl (md5Round (wordsOf block)) st with
  | (a0, b0, c0, d0), (a, b, c, d) =>
    ((a0 + a) % 4294967296, (b0 + b) % 4294967296,
     (c0 + c) % 4294967296, (d0 + d) % 4294967296)

/-- MD5 padding: append `0x80`, zeros up to 56 mod 64, then the 8-byte
little-endian bit length of the original message. -/
def md5Pad (msg : List Nat) : List Nat :=
  let L := msg.length
  let n := L * 8 % 18446744073709551616
  msg ++ [128] ++ List.replicate ((119 - L % 64) % 64) 0 ++
    [n % 256, n / 256 % 256, n / 65536 % 256, n / 16777216 % 256,
     n / 4294967296 % 256, n / 1099511627776 % 256,
     n / 281474976710656 % 256, n / 72057594037927936 % 256]

/-- Split a byte list into its successive 64-byte blocks, with structural
fuel; each step consumes at least one byte, so fuel equal to the list length
is always enough. -/
def toBlocksAux : Nat → List Nat → List (List Nat)
  | _, [] => []
  | 0, _ :: _ => []
  | fuel + 1, x :: xs => ((x :: xs).take 64) :: toBlocksAux fuel ((x :: xs).drop 64)

/-- Split a byte list into its successive 64-byte blocks. -/
def toBlocks (l : List Nat) : List (List Nat) := toBlocksAux l.length l

/-- The MD5 initial state (RFC 1321). -/
def md5Init : Nat × Nat × Nat × Nat :=
  (0x67452301, 0xefcdab89, 0x98badcfe, 0x10325476)

/-- The four 32-bit MD5 state words after absorbing the whole message. -/
def md5Core (msg : List Nat) : Nat × Nat × Nat × Nat :=
  (toBlocks (md5Pad msg)).foldl md5Block md5Init

/-- The four little-endian bytes of a 32-bit word. -/
def le4 (w : Nat) : List Nat :=
  [w % 256, w / 256 % 256, w / 65536 % 256, w / 16777216 % 256]

/-- The 16-byte MD5 digest of a byte sequence. -/
def md5Bytes (msg : List Nat) : List Nat :=
  match md5Core msg with
  | (a, b, c, d) => le4 a ++ le4 b ++ le4 c ++ le4 d

/-- Lowercase hexadecimal digit for a value below 16. -/
def hexDigitChar (n : Nat) : Char :=
  if n < 10 then Char.ofNat (48 + n) else Char.ofNat (87 + n)

/-- Lowercase hex encoding of a byte list, two characters per byte. -/
def hexOfBytes : List Nat → List Char
  | [] => []
  | b :: bs => hexDigitChar (b / 16) :: hexDigitChar (b % 16) :: hexOfBytes bs

/-- Python `hashlib.md5(data).hexdigest()`: the 32-character lowercase hex
form of the 16-byte MD5 digest. -/
def md5Hex (msg : List Nat) : String := String.mk (hexOfBytes (md5Bytes msg))

/-- UTF-8 encoding of one code point (as byte values). -/
def utf8EncodeCharNat (n : Nat) : List Nat :=
  if n < 128 then [n]
  else if n < 2048 then [192 + n / 64, 128 + n % 64]
  else if n < 65536 then [224 + n / 4096, 128 + n / 64 % 64, 128 + n % 64]
  else [240 + n / 262144, 128 + n / 4096 % 64, 128 + n / 64 % 64, 128 + n % 64]

/-- UTF-8 encoding of a character list. -/
def utf8Encode : List Char → List Nat
  | [] => []
  | c :: cs => utf8EncodeCharNat c.toNat ++ utf8Encode cs

/-- Python `s.encode()`: the UTF-8 bytes of a string. -/
def strBytes (s : String) : List Nat := utf8Encode s.data

/-- Python f-string `{n:02d}` for a natural number: the decimal digits,
zero-padded on the left to width at least 2. -/
def pad2 (n : Nat) : String :=
  String.mk (List.replicate (2 - (Nat.repr n).length) '0') ++ Nat.repr n

/-- A UTC calendar date, the part of `datetime.utcnow()` that
`generate_storage_path` reads. -/
structure UTCDate where
  year : Nat
  month : Nat
  day : Nat

/-- Function `generate_storage_path` (`storage.py` lines 172-187), with the
current UTC date made an explicit argument (the source reads it from
`datetime.utcnow()`):
`f"{prefix}/{now.year}/{now.month:02d}/{now.day:02d}/{url_hash}.jpg"` where
`url_hash = hashlib.md5(original_url.encode()).hexdigest()`.  The prefix
parameter (named `prefix` in the source, default "processed") is `pre` here. -/
def generate_storage_path (original_url : String) (pre : String)
    (now : UTCDate) : String :=
  pre ++ "/" ++ Nat.repr now.year ++ "/" ++ pad2 now.month ++ "/" ++
    pad2 now.day ++ "/" ++ md5Hex (strBytes original_url) ++ ".jpg"

/-- Lowercase hexadecimal characters: the digits and the letters a-f. -/
def isLowerHexChar (c : Char) : Prop :=
  ('0' ≤ c ∧ c ≤ '9') ∨ ('a' ≤ c ∧ c ≤ 'f')

instance (c : Char) : Decidable (isLowerHexChar c) := by
  unfold isLowerHexChar
  infer_instance

/-- The prefix-and-date part of a generated storage key: everything before
the hash segment. -/
def datePart (pre : String) (now : UTCDate) : String :=
  pre ++ "/" ++ Nat.repr now.year ++ "/" ++ pad2 now.month ++ "/" ++
    pad2 now.day ++ "/"

/-- A concrete adapter for instantiating the theorems. -/
def testAdapter : AzureBlobStorage :=
  { sas_url := "https://acct.blob.core.windows.net/cont?sv=2024&sig=abc",
    sas_token := "sv=2024&sig=abc",
    container_name := "cont" }

/-- A concrete one-blob container state for instantiating the theorems. -/
def testState : ContainerState :=
  backendUploadBlob emptyContainer "test_folder/f.txt" [72, 105]

/-! ## Helper lemmas -/

lemma pySplitChar_headD (sep : Char) (l : List Char) :
    (pySplitChar sep l).headD [] = l.takeWhile (fun c => c ≠ sep) := by
  induction l with
  | nil => rfl
  | cons c cs ih =>
    by_cases h : c = sep
    · simp [pySplitChar, h]
    · have htw : (c :: cs).takeWhile (fun x => x ≠ sep) =
          c :: cs.takeWhile (fun x => x ≠ sep) := by
        simp [List.takeWhile_cons, h]
      rw [htw]
      cases hr : pySplitChar sep cs with
      | nil =>
        have h0 : pySplitChar sep (c :: cs) = [[c]] := by
          simp [pySplitChar, h, hr]
        rw [hr] at ih
        simp only [List.headD_nil] at ih
        rw [h0]
        simp only [List.headD_cons]
        rw [← ih]
      | cons r rs =>
        have h0 : pySplitChar sep (c :: cs) = (c :: r) :: rs := by
          simp [pySplitChar, h, hr]
        rw [hr] at ih
        simp only [List.headD_cons] at ih
        rw [h0]
        simp only [List.headD_cons]
        rw [ih]

lemma hexOfBytes_length (bs : List Nat) :
    (hexOfBytes bs).length = 2 * bs.length := by
  induction bs with
  | nil => simp [hexOfBytes]
  | cons b bs ih => simp [hexOfBytes, ih]; omega

lemma md5Bytes_length (m : List Nat) : (md5Bytes m).length = 16 := by
  rcases h : md5Core m with ⟨a, b, c, d⟩
  simp [md5Bytes, h, le4]

lemma md5Hex_length (m : List Nat) : (md5Hex m).length = 32 := by
  show (hexOfBytes (md5Bytes m)).length = 32
  rw [hexOfBytes_length, md5Bytes_length]

lemma md5Bytes_lt (m : List Nat) : ∀ b ∈ md5Bytes m, b < 256 := by
  rcases h : md5Core m with ⟨a, b, c, d⟩
  simp [md5Bytes, h, le4]
  omega

lemma hexDigitChar_lowerHex (n : Nat) (h : n < 16) :
    isLowerHexChar (hexDigitChar n) := by
  have hall : ∀ m < 16, isLowerHexChar (hexDigitChar m) := by decide
  exact hall n h

lemma hexOfBytes_lowerHex (bs : List Nat) (hb : ∀ b ∈ bs, b < 256) :
    ∀ c ∈ hexOfBytes bs, isLowerHexChar c := by
  induction bs with
  | nil => simp [hexOfBytes]
  | cons b bs ih =>
    intro c hc
    simp only [hexOfBytes, List.mem_cons] at hc
    rcases hc with rfl | rfl | hc
    · exact hexDigitChar_lowerHex _ (by have := hb b (by simp); omega)
    · exact hexDigitChar_lowerHex _ (by omega)
    · exact ih (fun x hx => hb x (by simp [hx])) c hc

lemma pad2_length_lt_100 (n : Nat) (h : n < 100) : (pad2 n).length = 2 := by
  have hall : ∀ m < 100, (pad2 m).length = 2 := by decide
  exact hall n h

lemma generate_storage_path_eq (url pre : String) (d : UTCDate) :
    generate_storage_path url pre d =
      datePart pre d ++ (md5Hex (strBytes url) ++ ".jpg") := by
  apply String.ext
  simp [generate_storage_path, datePart, String.data_append, List.append_assoc]

lemma append_ne_of_middle_ne (A T h1 h2 : String)
    (hlen : h1.length = h2.length) (hne : h1 ≠ h2) :
    A ++ (h1 ++ T) ≠ A ++ (h2 ++ T) := by
  intro heq
  apply hne
  have hd : A.data ++ (h1.data ++ T.data) = A.data ++ (h2.data ++ T.data) := by
    have := congrArg String.data heq
    simpa [String.data_append] using this
  have hmid := List.append_cancel_left hd
  have hinj := List.append_inj hmid hlen
  exact String.ext hinj.1

/-! ## MD5 test vectors (RFC 1321), validating the hash embedding -/

example : md5Hex [] = "d41d8cd98f00b204e9800998ecf8427e" := by rfl

example : md5Hex (strBytes "abc") = "900150983cd24fb0d6963f7d28e17f72" := by rfl

/-! ## Claim theorems -/

/-- Claim C1: for every container state, key and byte sequence, `upload(K, B)`
followed by `download(K)` on the resulting state returns exactly B. -/
theorem upload_download_roundtrip (a : AzureBlobStorage) (st : ContainerState)
    (k : String) (b : ByteSeq) :
    a.download none (a.upload st k b).2 k = Except.ok b := by
  simp [AzureBlobStorage.download, AzureBlobStorage.upload,
    backendDownloadBlob, backendUploadBlob]

/-- Claim C2: `get_url(K)` returns the SAS base URL stripped at the first
question mark, then a slash, the key, a question mark and the SAS token; the
embedding takes no container state and no fault, so the result is the same
whether or not K names an existing blob and no network or state access
occurs. -/
theorem get_url_builds_base_key_token (a : AzureBlobStorage) (k : String)
    (e : Nat) :
    a.get_url k e = baseWithoutQuery a.sas_url ++ "/" ++ k ++ "?" ++
      a.sas_token := by
  unfold AzureBlobStorage.get_url baseWithoutQuery
  rw [pySplitChar_headD]

/-- Claim C3: `delete(K)` never propagates an exception (it is a total
function into `Bool`): it returns true exactly when the backend deletion
succeeds and false on every backend exception; delete on an absent key
returns false without raising, and delete on a present key returns true with
`exists(K)` false afterwards. -/
theorem delete_swallows_exceptions (a : AzureBlobStorage) (f : Fault)
    (st : ContainerState) (k : String) :
    ((a.delete f st k).1 = true ↔ ∃ st2, backendDeleteBlob f st k = Except.ok st2) ∧
    (∀ e, backendDeleteBlob f st k = Except.error e → a.delete f st k = (false, st)) ∧
    (f = none → st k = none → a.delete f st k = (false, st)) ∧
    (f = none → ∀ b, st k = some b →
      (a.delete f st k).1 = true ∧
      a.exists_blob none (a.delete f st k).2 k = Except.ok false) := by
  refine ⟨?_, ?_, ?_, ?_⟩
  · cases hr : backendDeleteBlob f st k with
    | ok st2 => simp [AzureBlobStorage.delete, hr]
    | error e => simp [AzureBlobStorage.delete, hr]
  · intro e he
    simp [AzureBlobStorage.delete, he]
  · intro hf hk
    subst hf
    simp [AzureBlobStorage.delete, backendDeleteBlob, hk]
  · intro hf b hb
    subst hf
    simp [AzureBlobStorage.delete, backendDeleteBlob, hb,
      AzureBlobStorage.exists_blob, backendExists]

/-- Witness for C3 at concrete inputs: deleting the present key succeeds and
the key no longer exists; deleting from the empty container returns false;
an injected network error also collapses to false. -/
theorem delete_swallows_exceptions_witness :
    (testAdapter.delete none testState "test_folder/f.txt").1 = true ∧
    testAdapter.exists_blob none
      (testAdapter.delete none testState "test_folder/f.txt").2
      "test_folder/f.txt" = Except.ok false ∧
    testAdapter.delete none emptyContainer "missing.txt" =
      (false, emptyContainer) ∧
    testAdapter.delete (some BackendErr.network) testState "test_folder/f.txt" =
      (false, testState) := by
  obtain ⟨h1, h2⟩ :=
    (delete_swallows_exceptions testAdapter none testState
      "test_folder/f.txt").2.2.2 rfl [72, 105] rfl
  exact ⟨h1, h2,
    (delete_swallows_exceptions testAdapter none emptyContainer
      "missing.txt").2.2.1 rfl rfl,
    (delete_swallows_exceptions testAdapter (some BackendErr.network) testState
      "test_folder/f.txt").2.1 BackendErr.network rfl⟩

/-- Claim C4: `generate_storage_path` returns
`<prefix>/<year>/<month>/<day>/<hex-digest>.jpg` where the hex digest is the
128-bit (32 hex character) MD5 of the source URL string itself — the
function takes no uploaded bytes — and the date components come from the
UTC date argument. -/
theorem generate_storage_path_hashes_url (url pre : String) (d : UTCDate) :
    generate_storage_path url pre d =
      pre ++ "/" ++ Nat.repr d.year ++ "/" ++ pad2 d.month ++ "/" ++
        pad2 d.day ++ "/" ++ md5Hex (strBytes url) ++ ".jpg" ∧
    (md5Hex (strBytes url)).length = 32 :=
  ⟨rfl, md5Hex_length _⟩

/-- Claim C5: on the same UTC calendar day the generated path is a function
of the URL and prefix alone; two URLs with different digests give different
paths that share the prefix-and-date part. -/
theorem generate_storage_path_same_day (url1 url2 pre : String)
    (d d2 : UTCDate) (hy : d2.year = d.year) (hm : d2.month = d.month)
    (hd : d2.day = d.day)
    (hhash : md5Hex (strBytes url1) ≠ md5Hex (strBytes url2)) :
    generate_storage_path url1 pre d2 = generate_storage_path url1 pre d ∧
    generate_storage_path url1 pre d =
      datePart pre d ++ (md5Hex (strBytes url1) ++ ".jpg") ∧
    generate_storage_path url2 pre d =
      datePart pre d ++ (md5Hex (strBytes url2) ++ ".jpg") ∧
    generate_storage_path url1 pre d ≠ generate_storage_path url2 pre d := by
  refine ⟨?_, generate_storage_path_eq url1 pre d,
    generate_storage_path_eq url2 pre d, ?_⟩
  · simp [generate_storage_path, hy, hm, hd]
  · rw [generate_storage_path_eq, generate_storage_path_eq]
    exact append_ne_of_middle_ne (datePart pre d) ".jpg" _ _
      (by rw [md5Hex_length, md5Hex_length]) hhash

/-- Witness for C5: two concrete URLs hashed on the same concrete day give
different storage paths. -/
theorem generate_storage_path_same_day_witness :
    generate_storage_path "a" "processed" ⟨2026, 3, 7⟩ ≠
      generate_storage_path "b" "processed" ⟨2026, 3, 7⟩ :=
  (generate_storage_path_same_day "a" "b" "processed" ⟨2026, 3, 7⟩
    ⟨2026, 3, 7⟩ rfl rfl rfl (by decide)).2.2.2

/-- Claim C6: the `expiry_hours` argument of `get_url` has no effect on the
returned URL. -/
theorem get_url_ignores_expiry_hours (a : AzureBlobStorage) (k : String)
    (e1 e2 : Nat) : a.get_url k e1 = a.get_url k e2 := rfl

/-- Claim C7: upload overwrites unconditionally: uploading B1 then B2 under
the same key leaves download returning B2, for any prior state, and upload
returns the key it was given. -/
theorem upload_overwrite_last_write_wins (a : AzureBlobStorage)
    (st : ContainerState) (k : String) (b1 b2 : ByteSeq) :
    (a.upload st k b1).1 = k ∧
    a.download none (a.upload (a.upload st k b1).2 k b2).2 k =
      Except.ok b2 := by
  refine ⟨rfl, ?_⟩
  simp [AzureBlobStorage.download, AzureBlobStorage.upload,
    backendDownloadBlob, backendUploadBlob]

/-- Claim C8: `exists(K)` is the raw backend existence check: an injected
backend error propagates unwrapped as that very error (never converted to a
boolean), and when the backend answers, the result is true exactly when a
blob is stored under K. -/
theorem exists_propagates_errors (a : AzureBlobStorage) (f : Fault)
    (st : ContainerState) (k : String) :
    a.exists_blob f st k = backendExists f st k ∧
    (∀ e, f = some e → a.exists_blob f st k = Except.error e) ∧
    (f = none → a.exists_blob f st k = Except.ok (st k).isSome) ∧
    (f = none → (a.exists_blob f st k = Except.ok true ↔ (st k).isSome = true)) := by
  refine ⟨rfl, ?_, ?_, ?_⟩
  · intro e he
    subst he
    rfl
  · intro hf
    subst hf
    rfl
  · intro hf
    subst hf
    simp [AzureBlobStorage.exists_blob, backendExists]

/-- Witness for C8 at concrete inputs: an injected network error surfaces
unwrapped, and on the fault-free run the answer is membership. -/
theorem exists_propagates_errors_witness :
    testAdapter.exists_blob (some BackendErr.network) testState "k" =
      Except.error BackendErr.network ∧
    testAdapter.exists_blob none testState "test_folder/f.txt" =
      Except.ok ((testState "test_folder/f.txt").isSome) ∧
    (testAdapter.exists_blob none testState "test_folder/f.txt" =
        Except.ok true ↔ (testState "test_folder/f.txt").isSome = true) :=
  ⟨(exists_propagates_errors testAdapter (some BackendErr.network) testState
      "k").2.1 BackendErr.network rfl,
   (exists_propagates_errors testAdapter none testState
      "test_folder/f.txt").2.2.1 rfl,
   (exists_propagates_errors testAdapter none testState
      "test_folder/f.txt").2.2.2 rfl⟩

/-- Claim C9: in every generated key the month and day segments are
zero-padded to exactly two digits (their values being at most 12 and 31),
the year segment is the unpadded decimal representation, and the hash
segment is 32 lowercase hexadecimal characters. -/
theorem generate_storage_path_segment_widths (url pre : String) (d : UTCDate)
    (hm : d.month ≤ 12) (hd : d.day ≤ 31) :
    (pad2 d.month).length = 2 ∧ (pad2 d.day).length = 2 ∧
    (md5Hex (strBytes url)).length = 32 ∧
    (∀ c ∈ (md5Hex (strBytes url)).data, isLowerHexChar c) ∧
    generate_storage_path url pre d =
      pre ++ "/" ++ Nat.repr d.year ++ "/" ++ pad2 d.month ++ "/" ++
        pad2 d.day ++ "/" ++ md5Hex (strBytes url) ++ ".jpg" := by
  refine ⟨pad2_length_lt_100 _ (by omega), pad2_length_lt_100 _ (by omega),
    md5Hex_length _, ?_, rfl⟩
  intro c hc
  exact hexOfBytes_lowerHex _ (md5Bytes_lt _) c hc

/-- Witness for C9 at a concrete single-digit month and day. -/
theorem generate_storage_path_segment_widths_witness :
    (pad2 3).length = 2 ∧ (pad2 7).length = 2 ∧
    (md5Hex (strBytes "x")).length = 32 ∧
    (∀ c ∈ (md5Hex (strBytes "x")).data, isLowerHexChar c) ∧
    generate_storage_path "x" "p" ⟨2026, 3, 7⟩ =
      "p" ++ "/" ++ Nat.repr 2026 ++ "/" ++ pad2 3 ++ "/" ++ pad2 7 ++ "/" ++
        md5Hex (strBytes "x") ++ ".jpg" :=
  generate_storage_path_segment_widths "x" "p" ⟨2026, 3, 7⟩ (by decide)
    (by decide)

/-- Claim C10: the URL built by `get_url` depends only on the adapter's
`sas_url` and `sas_token` fields and the key: adapters agreeing on those two
fields return the same string for every key and every `expiry_hours`,
whatever their `container_name`. -/
theorem get_url_depends_only_on_sas_fields (a1 a2 : AzureBlobStorage)
    (k : String) (e1 e2 : Nat) (hu : a1.sas_url = a2.sas_url)
    (ht : a1.sas_token = a2.sas_token) :
    a1.get_url k e1 = a2.get_url k e2 := by
  simp [AzureBlobStorage.get_url, hu, ht]

/-- Witness for C10: two adapters differing only in `container_name` give
the same URL. -/
theorem get_url_depends_only_on_sas_fields_witness :
    ({ sas_url := "https://acct.blob.core.windows.net/cont?sv=2024&sig=abc",
       sas_token := "sv=2024&sig=abc", container_name := "cont" } :
        AzureBlobStorage).get_url "a/b.jpg" 24 =
    ({ sas_url := "https://acct.blob.core.windows.net/cont?sv=2024&sig=abc",
       sas_token := "sv=2024&sig=abc", container_name := "other" } :
        AzureBlobStorage).get_url "a/b.jpg" 1 :=
  get_url_depends_only_on_sas_fields
    { sas_url := "https://acct.blob.core.windows.net/cont?sv=2024&sig=abc",
      sas_token := "sv=2024&sig=abc", container_name := "cont" }
    { sas_url := "https://acct.blob.core.windows.net/cont?sv=2024&sig=abc",
      sas_token := "sv=2024&sig=abc", container_name := "other" }
    "a/b.jpg" 24 1 rfl rfl
